import Mathlib

/-!
Shallow embedding of the No-Forwards Telegram moderation bot (src/bot.py).

Times and chat/user identifiers are Python ints, embedded as `Int`.
The global mutable caches of bot.py (BOT_ADMIN_CACHE, USER_ADMIN_CACHE,
REMINDER_MESSAGES, LINK_SPAM_CACHE, ADMIN_VERIFY_CACHE), the job queue and
the two persistent tables the claims touch (groups, link_spam) are gathered
in one explicit state record `BotState` that every operation threads.
Python dicts are embedded as association lists with first-match lookup;
Python sets as lists queried by membership.  Fire-and-forget DB writes
(`create_task(db_execute ...)`) are applied directly to the db fields of the
state (their eventual effect); calls to the Telegram platform are recorded
in an `Effect` list.  Exceptions raised by platform calls are supplied by an
`Env` record describing the outcome of each external call.
-/

-- ===== constants (bot.py lines 46-48, 54, 63, 71) =====

def LINK_LIMIT : Nat := 3
def MUTE_SECONDS : Int := 600
def SPAM_RESET_SECONDS : Int := 3600
def ADMIN_VERIFY_SECONDS : Int := 300

-- ===== association-list maps (embedding of Python dict) =====

def alGet {α β : Type} [DecidableEq α] (l : List (α × β)) (k : α) : Option β :=
  (l.find? (fun p => decide (p.1 = k))).map Prod.snd

def alSet {α β : Type} [DecidableEq α] (l : List (α × β)) (k : α) (v : β) :
    List (α × β) :=
  (k, v) :: l.filter (fun p => decide (p.1 ≠ k))

def alDel {α β : Type} [DecidableEq α] (l : List (α × β)) (k : α) : List (α × β) :=
  l.filter (fun p => decide (p.1 ≠ k))

-- Python set.add / set.discard on a membership-queried list
def setAdd (l : List Int) (x : Int) : List Int :=
  if x ∈ l then l else x :: l

def setDiscard (l : List Int) (x : Int) : List Int :=
  l.filter (fun c => decide (c ≠ x))

-- ===== data model =====

/-- One LINK_SPAM_CACHE entry.  Python stores a dict with keys "count",
"last_time" and optionally "mute_until"; `data.get ("mute_until", 0)` makes a
missing key indistinguishable from 0, so `mute_until = 0` embeds absence. -/
structure SpamEntry where
  count : Nat
  last_time : Int
  mute_until : Int
deriving DecidableEq, Repr

/-- Outcome of a `get_chat_member` platform call: a normal reply carrying the
member's status string and the relevant permission bits, a ChatMigrated
exception carrying the new chat id, or any other exception (transient
network/timeout errors and permanent forbidden/not-found errors alike end up
in the same bare `except` clauses of bot.py, so they share one constructor). -/
inductive MemberResult where
  | ok (status : String) (can_delete : Bool) (can_restrict : Bool)
  | migrated (new_id : Int)
  | error
deriving DecidableEq

/-- Telegram platform calls attempted by the moderation path. -/
inductive Effect where
  | getChatMemberBot (chat_id : Int)
  | getChatMemberUser (chat_id user_id : Int)
  | deleteMessage (chat_id : Int)
  | restrictMember (chat_id user_id until_date : Int)
  | sendMessage (chat_id : Int) (kind : String)
  | deleteReminderMsg (chat_id : Int) (msg_id : Nat)
  | leaveChat (chat_id : Int)
deriving DecidableEq, Repr

/-- Which handler a scheduled job runs (the callback passed to
`job_queue.run_once`). -/
inductive JobKind where
  | adminReminder
  | autoLeave
deriving DecidableEq, Repr

/-- A job_queue entry: its callback, name (Python `None` name embeds as ""),
absolute run time, and the `data` dict fields used by bot.py
(`chat_id`, `count`, `total`, `type`; missing "type" embeds as ""). -/
structure Job where
  kind : JobKind
  name : String
  run_at : Int
  chat_id : Int
  count : Nat
  total : Nat
  jtype : String
deriving DecidableEq, Repr

/-- The process-wide mutable state of bot.py plus the two persistent tables
the claims are about.  `db_groups` maps group_id to
(is_admin_cached, last_checked_at); `db_link_spam` maps (chat_id, user_id)
to (count, last_time). -/
structure BotState where
  ADMIN_VERIFY_CACHE : List (Int × Int)
  BOT_ADMIN_CACHE : List Int
  USER_ADMIN_CACHE : List (Int × List Int)
  REMINDER_MESSAGES : List (Int × List Nat)
  LINK_SPAM_CACHE : List ((Int × Int) × SpamEntry)
  jobs : List Job
  db_groups : List (Int × (Bool × Int))
  db_link_spam : List ((Int × Int) × (Nat × Int))
deriving DecidableEq

/-- Outcomes of the external calls an operation may perform. -/
structure Env where
  getMember : Int → MemberResult
  userMember : Int → Int → MemberResult
  dbTimeout : Bool
  restrictOk : Bool
  deleteOk : Bool
  sendOk : Bool
  sendMsgId : Nat

def is_admin_status (st : String) : Bool :=
  st == "administrator" || st == "creator"

def member_is_admin : MemberResult → Bool
  | .ok status _ _ => is_admin_status status
  | _ => false

def member_is_migrated : MemberResult → Bool
  | .migrated _ => true
  | _ => false

-- ===== link_spam_control (bot.py lines 681-760) =====

/-- Tail of `link_spam_control` after the counter has been read/updated
(bot.py lines 725-760): the cache already holds the updated entry `d`.
When the count is below LINK_LIMIT the updated counter is upserted to the
link_spam table and no mute happens; otherwise, for supergroups only, the
bot checks its own can_restrict_members bit, attempts the restriction, and
on success rewrites the cache entry with mute_until and deletes the
persisted counter row. -/
def spam_finish (now chat_id : Int) (chat_type : String) (user_id : Int)
    (env : Env) (s : BotState) (d : SpamEntry) : Bool × BotState × List Effect :=
  if d.count < LINK_LIMIT then
    (false,
     { s with db_link_spam :=
         alSet s.db_link_spam (chat_id, user_id) (d.count, d.last_time) },
     [])
  else if chat_type ≠ "supergroup" then
    (false, s, [])
  else
    match env.getMember chat_id with
    | MemberResult.ok _ _ can_restrict =>
      if !can_restrict then
        (false, s, [Effect.getChatMemberBot chat_id])
      else if !env.restrictOk then
        (false, s,
         [Effect.getChatMemberBot chat_id,
          Effect.restrictMember chat_id user_id (now + MUTE_SECONDS)])
      else
        (true,
         { s with
             LINK_SPAM_CACHE :=
               alSet s.LINK_SPAM_CACHE (chat_id, user_id)
                 ⟨d.count, now, now + MUTE_SECONDS⟩,
             db_link_spam := alDel s.db_link_spam (chat_id, user_id) },
         [Effect.getChatMemberBot chat_id,
          Effect.restrictMember chat_id user_id (now + MUTE_SECONDS)])
    | _ =>
      -- get_chat_member raised (any exception, including ChatMigrated,
      -- is swallowed by the bare `except` and the function returns False)
      (false, s, [Effect.getChatMemberBot chat_id])

/-- `link_spam_control(chat_id, chat_type, user_id)` at time `now`.
Returns (muted, state', attempted platform calls).  The DB fallback read
(`SELECT count, last_time FROM link_spam ...` under a 2s wait_for) yields no
row either when the table has none or when the read times out
(`env.dbTimeout`); both fall to the "no prior record" branch. -/
def link_spam_control (now chat_id : Int) (chat_type : String) (user_id : Int)
    (env : Env) (s : BotState) : Bool × BotState × List Effect :=
  match alGet s.LINK_SPAM_CACHE (chat_id, user_id) with
  | some data =>
    if data.mute_until ≠ 0 ∧ now < data.mute_until then
      (true, s, [])
    else if now - data.last_time < MUTE_SECONDS then
      (false, s, [])
    else
      let count : Nat :=
        if now - data.last_time > SPAM_RESET_SECONDS then 1 else data.count + 1
      let d : SpamEntry := ⟨count, now, data.mute_until⟩
      spam_finish now chat_id chat_type user_id env
        { s with LINK_SPAM_CACHE := alSet s.LINK_SPAM_CACHE (chat_id, user_id) d }
        d
  | none =>
    let rows : Option (Nat × Int) :=
      if env.dbTimeout then none else alGet s.db_link_spam (chat_id, user_id)
    match rows with
    | some r =>
      if now - r.2 < MUTE_SECONDS then
        (false, s, [])
      else
        let count : Nat :=
          if now - r.2 > SPAM_RESET_SECONDS then 1 else r.1 + 1
        let d : SpamEntry := ⟨count, now, 0⟩
        spam_finish now chat_id chat_type user_id env
          { s with LINK_SPAM_CACHE := alSet s.LINK_SPAM_CACHE (chat_id, user_id) d }
          d
    | none =>
      let d : SpamEntry := ⟨1, now, 0⟩
      spam_finish now chat_id chat_type user_id env
        { s with LINK_SPAM_CACHE := alSet s.LINK_SPAM_CACHE (chat_id, user_id) d }
        d

-- ===== ensure_bot_admin_live (bot.py lines 216-320) =====

/-- The ChatMigrated branch of `ensure_bot_admin_live` (bot.py lines 225-264):
re-keys BOT_ADMIN_CACHE, USER_ADMIN_CACHE, REMINDER_MESSAGES and the
LINK_SPAM_CACHE from `chat_id` to `new_id`, upserts the new groups row,
deletes the old groups row and deletes the old chat's link_spam rows.
The job queue and the link_spam table under the new id are not touched. -/
def migrate_ram_db (chat_id new_id now : Int) (s : BotState) : BotState :=
  { s with
      BOT_ADMIN_CACHE :=
        if chat_id ∈ s.BOT_ADMIN_CACHE then
          setAdd (setDiscard s.BOT_ADMIN_CACHE chat_id) new_id
        else s.BOT_ADMIN_CACHE,
      USER_ADMIN_CACHE :=
        alSet (alDel s.USER_ADMIN_CACHE chat_id) new_id
          ((alGet s.USER_ADMIN_CACHE chat_id).getD []),
      REMINDER_MESSAGES :=
        alSet (alDel s.REMINDER_MESSAGES chat_id) new_id
          ((alGet s.REMINDER_MESSAGES chat_id).getD []),
      LINK_SPAM_CACHE :=
        s.LINK_SPAM_CACHE.map
          (fun e => (((if e.1.1 = chat_id then new_id else e.1.1), e.1.2), e.2)),
      db_groups := alDel (alSet s.db_groups new_id (true, now)) chat_id,
      db_link_spam := s.db_link_spam.filter (fun e => decide (e.1.1 ≠ chat_id)) }

/-- `ensure_bot_admin_live(chat_id)` at time `now`.  The `fuel` argument
bounds the recursion of the ChatMigrated branch only (the Python recurses
unboundedly if the platform keeps answering ChatMigrated); every claim uses
enough fuel for its scenario.  Within ADMIN_VERIFY_SECONDS of the recorded
verification timestamp the function answers from BOT_ADMIN_CACHE with no
platform call and no state change; otherwise it records the timestamp
first, then performs the live check. -/
def ensure_bot_admin_live :
    Nat → Int → Int → Env → BotState → Bool × BotState × List Effect
  | fuel, now, chat_id, env, s =>
    let last := (alGet s.ADMIN_VERIFY_CACHE chat_id).getD 0
    if now - last < ADMIN_VERIFY_SECONDS then
      (decide (chat_id ∈ s.BOT_ADMIN_CACHE), s, [])
    else
      let s1 : BotState :=
        { s with ADMIN_VERIFY_CACHE := alSet s.ADMIN_VERIFY_CACHE chat_id now }
      match env.getMember chat_id with
      | MemberResult.migrated new_id =>
        let s2 := migrate_ram_db chat_id new_id now s1
        match fuel with
        | 0 => (false, s2, [Effect.getChatMemberBot chat_id])
        | fuel' + 1 =>
          let r := ensure_bot_admin_live fuel' now new_id env s2
          (r.1, r.2.1, Effect.getChatMemberBot chat_id :: r.2.2)
      | MemberResult.error =>
        -- bot.py lines 268-273: ANY other exception (transient or permanent)
        -- discards the chat from all three RAM caches and reports False
        (false,
         { s1 with
             BOT_ADMIN_CACHE := setDiscard s1.BOT_ADMIN_CACHE chat_id,
             USER_ADMIN_CACHE := alDel s1.USER_ADMIN_CACHE chat_id,
             REMINDER_MESSAGES := alDel s1.REMINDER_MESSAGES chat_id },
         [Effect.getChatMemberBot chat_id])
      | MemberResult.ok status can_delete _ =>
        if is_admin_status status && can_delete then
          (true,
           { s1 with
               BOT_ADMIN_CACHE := setAdd s1.BOT_ADMIN_CACHE chat_id,
               db_groups := alSet s1.db_groups chat_id (true, now) },
           [Effect.getChatMemberBot chat_id])
        else
          (false,
           { s1 with
               BOT_ADMIN_CACHE := setDiscard s1.BOT_ADMIN_CACHE chat_id,
               USER_ADMIN_CACHE := alDel s1.USER_ADMIN_CACHE chat_id,
               REMINDER_MESSAGES := alDel s1.REMINDER_MESSAGES chat_id,
               db_groups := alSet s1.db_groups chat_id (false, now),
               jobs := s1.jobs ++
                 [⟨JobKind.autoLeave, "auto_leave_" ++ toString chat_id,
                   now + 60, chat_id, 0, 0, ""⟩] },
           [Effect.getChatMemberBot chat_id])

-- ===== is_user_admin (bot.py lines 322-333) =====

/-- `is_user_admin(chat_id, user_id)`.  Note `USER_ADMIN_CACHE.setdefault`
inserts an empty set on a cache miss before anything else; only a positive
live result is added to the cache, and any exception yields False with the
cache otherwise untouched. -/
def is_user_admin (chat_id user_id : Int) (env : Env) (s : BotState) :
    Bool × BotState × List Effect :=
  let admins := (alGet s.USER_ADMIN_CACHE chat_id).getD []
  let s1 : BotState :=
    if (alGet s.USER_ADMIN_CACHE chat_id).isNone then
      { s with USER_ADMIN_CACHE := alSet s.USER_ADMIN_CACHE chat_id [] }
    else s
  if user_id ∈ admins then (true, s1, [])
  else
    match env.userMember chat_id user_id with
    | MemberResult.ok status _ _ =>
      if is_admin_status status then
        let uac := alSet s1.USER_ADMIN_CACHE chat_id (user_id :: admins)
        (true, { s1 with USER_ADMIN_CACHE := uac },
         [Effect.getChatMemberUser chat_id user_id])
      else
        (false, s1, [Effect.getChatMemberUser chat_id user_id])
    | _ => (false, s1, [Effect.getChatMemberUser chat_id user_id])

-- ===== link detection + auto_delete_links (bot.py lines 607-679) =====

def listContainsSub (needle : List Char) : List Char → Bool
  | [] => needle.isEmpty
  | c :: rest => needle.isPrefixOf (c :: rest) || listContainsSub needle rest

/-- Python `a or b` on strings: "" is falsy. -/
def py_or_str (a b : String) : String :=
  if a = "" then b else a

/-- The inbound message fields `auto_delete_links` reads.  An absent
text/caption embeds as ""; entity lists carry only the entity type tag. -/
structure MsgCtx where
  chat_id : Int
  chat_type : String
  user_id : Int
  entity_types : List String
  caption_entity_types : List String
  text : String
  caption : String

/-- The pure link-detection predicate of bot.py lines 621-634: any url or
text_link entity in the message or its caption, or one of the three markers
in the lowercased text-or-caption (lowering is done on the character list,
which is what Python's str.lower does for this ASCII marker test). -/
def has_link_msg (m : MsgCtx) : Bool :=
  (m.entity_types ++ m.caption_entity_types).any
    (fun t => t == "url" || t == "text_link")
  ||
  (let text := (py_or_str m.text (py_or_str m.caption "")).toList.map Char.toLower
   listContainsSub ("http://").toList text ||
     listContainsSub ("https://").toList text ||
     listContainsSub ("t.me/").toList text)

/-- `auto_delete_links` for a message with chat, message and user present
(the handler returns immediately when any of the three is missing, which is
the same no-op as the other guard branches).  `owner_id` is the OWNER_ID
configuration value. -/
def auto_delete_links (owner_id : Int) (fuel : Nat) (now : Int) (env : Env)
    (m : MsgCtx) (s : BotState) : BotState × List Effect :=
  if !(m.chat_type == "group" || m.chat_type == "supergroup") then (s, [])
  else if m.user_id = owner_id then (s, [])
  else if !(has_link_msg m) then (s, [])
  else
    let r1 := ensure_bot_admin_live fuel now m.chat_id env s
    if !r1.1 then (r1.2.1, r1.2.2)
    else
      let r2 := is_user_admin m.chat_id m.user_id env r1.2.1
      if r2.1 then (r2.2.1, r1.2.2 ++ r2.2.2)
      else if !env.deleteOk then
        (r2.2.1, r1.2.2 ++ r2.2.2 ++ [Effect.deleteMessage m.chat_id])
      else
        let r3 := link_spam_control now m.chat_id m.chat_type m.user_id env r2.2.1
        (r3.2.1,
         r1.2.2 ++ r2.2.2 ++ [Effect.deleteMessage m.chat_id] ++ r3.2.2 ++
           [if r3.1 then Effect.sendMessage m.chat_id ("mute_notice")
            else Effect.sendMessage m.chat_id ("delete_notice")])

-- ===== reminder / auto-leave jobs (bot.py lines 149-159, 953-1136) =====

/-- `clear_reminders` (bot.py lines 149-159): removes from the job queue
every job whose data names this chat and whose name starts with
"auto_leave_" or whose data type is "admin_reminder". -/
def clear_reminders (chat_id : Int) (jobs : List Job) : List Job :=
  jobs.filter (fun j =>
    !(j.chat_id == chat_id &&
      (("auto_leave_").isPrefixOf j.name || j.jtype == "admin_reminder")))

/-- Shared tail of `leave_if_not_admin` (bot.py lines 968-990) once the bot
is not (or cannot be confirmed) admin: purge RAM caches, mark the groups row
non-admin, delete the chat's link_spam rows, and attempt to leave. -/
def leave_chat_cleanup (now chat_id : Int) (s : BotState) :
    BotState × List Effect :=
  ({ s with
       BOT_ADMIN_CACHE := setDiscard s.BOT_ADMIN_CACHE chat_id,
       USER_ADMIN_CACHE := alDel s.USER_ADMIN_CACHE chat_id,
       REMINDER_MESSAGES := alDel s.REMINDER_MESSAGES chat_id,
       db_groups :=
         s.db_groups.map (fun e => if e.1 = chat_id then (e.1, (false, now)) else e),
       db_link_spam := s.db_link_spam.filter (fun e => decide (e.1.1 ≠ chat_id)) },
   [Effect.getChatMemberBot chat_id, Effect.leaveChat chat_id])

/-- `leave_if_not_admin` job callback (bot.py lines 953-990).  A live check
that reports admin repopulates BOT_ADMIN_CACHE and does nothing else; any
other outcome (non-admin or exception: the `except` is `pass`) falls
through to the cleanup-and-leave tail. -/
def leave_if_not_admin (now : Int) (env : Env) (j : Job) (s : BotState) :
    BotState × List Effect :=
  if j.chat_id = 0 then (s, [])
  else
    match env.getMember j.chat_id with
    | MemberResult.ok status _ _ =>
      if is_admin_status status then
        ({ s with BOT_ADMIN_CACHE := setAdd s.BOT_ADMIN_CACHE j.chat_id },
         [Effect.getChatMemberBot j.chat_id])
      else leave_chat_cleanup now j.chat_id s
    | _ => leave_chat_cleanup now j.chat_id s

/-- `admin_reminder` job callback (bot.py lines 1089-1136).  If the chat is
already in BOT_ADMIN_CACHE, or the live check says admin, the remaining
reminders self-cancel and nothing is sent; a failed live check cancels and
purges; otherwise a reminder message is sent and its id recorded (a failed
send cancels and purges too). -/
def admin_reminder (env : Env) (j : Job) (s : BotState) :
    BotState × List Effect :=
  if j.chat_id = 0 then (s, [])
  else if j.chat_id ∈ s.BOT_ADMIN_CACHE then
    ({ s with jobs := clear_reminders j.chat_id s.jobs }, [])
  else
    match env.getMember j.chat_id with
    | MemberResult.ok status _ _ =>
      if is_admin_status status then
        ({ s with
             BOT_ADMIN_CACHE := setAdd s.BOT_ADMIN_CACHE j.chat_id,
             jobs := clear_reminders j.chat_id s.jobs },
         [Effect.getChatMemberBot j.chat_id])
      else if env.sendOk then
        let mids := (alGet s.REMINDER_MESSAGES j.chat_id).getD []
        ({ s with REMINDER_MESSAGES :=
             alSet s.REMINDER_MESSAGES j.chat_id (mids ++ [env.sendMsgId]) },
         [Effect.getChatMemberBot j.chat_id,
          Effect.sendMessage j.chat_id ("reminder")])
      else
        ({ s with
             jobs := clear_reminders j.chat_id s.jobs,
             BOT_ADMIN_CACHE := setDiscard s.BOT_ADMIN_CACHE j.chat_id,
             REMINDER_MESSAGES := alDel s.REMINDER_MESSAGES j.chat_id },
         [Effect.getChatMemberBot j.chat_id,
          Effect.sendMessage j.chat_id ("reminder")])
    | _ =>
      ({ s with
           jobs := clear_reminders j.chat_id s.jobs,
           BOT_ADMIN_CACHE := setDiscard s.BOT_ADMIN_CACHE j.chat_id,
           REMINDER_MESSAGES := alDel s.REMINDER_MESSAGES j.chat_id },
       [Effect.getChatMemberBot j.chat_id])

/-- The promotion branch of `on_my_chat_member` (bot.py lines 999, 1007-1039):
the bot just became administrator.  USER_ADMIN_CACHE is invalidated for
every membership event first; then the chat is cached as admin, all its
reminder/auto-leave jobs are cancelled, its reminder messages are deleted,
the groups row is upserted admin, and a thank-you message is sent. -/
def on_promoted (now chat_id : Int) (s : BotState) : BotState × List Effect :=
  let s0 : BotState := { s with USER_ADMIN_CACHE := alDel s.USER_ADMIN_CACHE chat_id }
  let mids := (alGet s0.REMINDER_MESSAGES chat_id).getD []
  ({ s0 with
       BOT_ADMIN_CACHE := setAdd s0.BOT_ADMIN_CACHE chat_id,
       jobs := clear_reminders chat_id s0.jobs,
       REMINDER_MESSAGES := alDel s0.REMINDER_MESSAGES chat_id,
       db_groups := alSet s0.db_groups chat_id (true, now) },
   mids.map (Effect.deleteReminderMsg chat_id) ++
     [Effect.sendMessage chat_id ("thanks")])

/-- Events driving the reminder subsystem: a my_chat_member update reporting
that the bot was promoted to administrator, or the job queue firing the
i-th pending job (firing in any order subsumes firing in run_at order). -/
inductive TraceEvent where
  | promote (chat_id : Int)
  | fire (i : Nat)

def run_job (now : Int) (env : Env) (j : Job) (s : BotState) :
    BotState × List Effect :=
  match j.kind with
  | JobKind.adminReminder => admin_reminder env j s
  | JobKind.autoLeave => leave_if_not_admin now env j s

def trace_step (now : Int) (env : Env) (s : BotState) :
    TraceEvent → BotState × List Effect
  | TraceEvent.promote c => on_promoted now c s
  | TraceEvent.fire i =>
    match s.jobs[i]? with
    | none => (s, [])
    | some j => run_job now env j { s with jobs := s.jobs.eraseIdx i }

def run_trace (now : Int) (env : Env) (s : BotState) :
    List TraceEvent → BotState × List Effect
  | [] => (s, [])
  | e :: rest =>
    let r := trace_step now env s e
    let r2 := run_trace now env r.1 rest
    (r2.1, r.2 ++ r2.2)

-- ===== broadcast dispatch (bot.py lines 821-948) =====

/-- The recipient directory: the users table and the groups table
(group_id, is_admin_cached). -/
structure BcDb where
  users : List Int
  groups : List (Int × Bool)
deriving DecidableEq, Repr

/-- What the platform does with one outbound send to a recipient. -/
inductive SendOutcome where
  | delivered
  | forbidden
  | badRequest
  | retryAfter (secs : Nat)
  | migrated (new_id : Int)
  | otherError
deriving DecidableEq, Repr

/-- Result of one `await func(*args)` inside `safe_send`: a returned value
or one of the exception classes `safe_send` handles. -/
inductive PyCall (α : Type) where
  | ret (v : α)
  | raiseMigrated (new_id : Int)
  | raiseRetryAfter (secs : Nat)
  | raiseForbidden
  | raiseBadRequest

/-- `send_content` (bot.py lines 908-948): attempts the send and swallows
EVERY exception — `except (Forbidden, BadRequest)` and `except Exception`
both return None — so its caller observes only a value or None and no
exception ever escapes.  No retry and no recipient-directory write happens
here on any failure. -/
def send_content (outcome : Int → SendOutcome) (chat_id : Int) : Option Unit :=
  match outcome chat_id with
  | SendOutcome.delivered => some ()
  | _ => none

/-- `safe_send` (bot.py lines 821-845): up to 5 attempts; a ChatMigrated
exception rewrites the stored group id and retries the new id, RetryAfter
sleeps and retries, Forbidden/BadRequest return None immediately, loop
exhaustion returns None.  Nothing is ever deleted from the directory. -/
def safe_send (attempt : Int → PyCall (Option Unit)) :
    Nat → Int → BcDb → Option Unit × BcDb
  | 0, _, db => (none, db)
  | n + 1, chat_id, db =>
    match attempt chat_id with
    | PyCall.ret v => (v, db)
    | PyCall.raiseMigrated new_id =>
      let db' : BcDb :=
        { db with groups :=
            db.groups.map (fun g => if g.1 = chat_id then (new_id, g.2) else g) }
      safe_send attempt n new_id db'
    | PyCall.raiseRetryAfter _ => safe_send attempt n chat_id db
    | PyCall.raiseForbidden => (none, db)
    | PyCall.raiseBadRequest => (none, db)

/-- The per-page send loop of `broadcast_target_handler` (bot.py lines
876-882): for every recipient id streamed from the directory, one
`safe_send(send_content, ...)` and an unconditional `sent += 1`. -/
def send_batch (attempt : Int → PyCall (Option Unit)) :
    List Int → BcDb → Nat → BcDb × Nat
  | [], db, sent => (db, sent)
  | cid :: rest, db, sent =>
    let r := safe_send attempt 5 cid db
    send_batch attempt rest r.2 (sent + 1)

inductive BcTarget where
  | users
  | groups
  | all

/-- The recipient ids streamed by `broadcast_target_handler` (bot.py lines
884-892): all user ids, the admin-flagged group ids, or both in that order.
`iter_db_ids` pages the table with LIMIT/OFFSET; since nothing in the send
path mutates the users table or the admin-flagged membership of groups, the
pages concatenate to exactly this ordered list. -/
def broadcast_targets (db : BcDb) : BcTarget → List Int
  | BcTarget.users => db.users
  | BcTarget.groups => (db.groups.filter (fun g => g.2)).map Prod.fst
  | BcTarget.all =>
    db.users ++ (db.groups.filter (fun g => g.2)).map Prod.fst

/-- One confirmed broadcast run: streams the selected recipients and sends
to each through `safe_send(send_content, ...)`.  `send_content` never lets
an exception escape, so `safe_send`'s attempt argument always returns.
Yields the final directory and the `sent` counter reported in the
completion message. -/
def broadcast_run (outcome : Int → SendOutcome) (tgt : BcTarget) (db : BcDb) :
    BcDb × Nat :=
  send_batch (fun cid => PyCall.ret (send_content outcome cid))
    (broadcast_targets db tgt) db 0

-- ===== association-list lemmas =====

theorem alGet_cons_self {α β : Type} [DecidableEq α] (e : α × β)
    (l : List (α × β)) (k : α) (h : e.1 = k) :
    alGet (e :: l) k = some e.2 := by
  simp [alGet, List.find?_cons, h]

theorem alGet_cons_ne {α β : Type} [DecidableEq α] (e : α × β)
    (l : List (α × β)) (k : α) (h : e.1 ≠ k) :
    alGet (e :: l) k = alGet l k := by
  simp [alGet, List.find?_cons, h]

theorem alDel_cons_self {α β : Type} [DecidableEq α] (e : α × β)
    (l : List (α × β)) (k : α) (h : e.1 = k) :
    alDel (e :: l) k = alDel l k := by
  simp [alDel, List.filter_cons, h]

theorem alDel_cons_ne {α β : Type} [DecidableEq α] (e : α × β)
    (l : List (α × β)) (k : α) (h : e.1 ≠ k) :
    alDel (e :: l) k = e :: alDel l k := by
  simp [alDel, List.filter_cons, h]

theorem alGet_alDel_self {α β : Type} [DecidableEq α] (l : List (α × β))
    (k : α) : alGet (alDel l k) k = none := by
  induction l with
  | nil => rfl
  | cons e rest ih =>
    by_cases he : e.1 = k
    · rw [alDel_cons_self e rest k he, ih]
    · rw [alDel_cons_ne e rest k he, alGet_cons_ne e (alDel rest k) k he, ih]

theorem alGet_alDel_ne {α β : Type} [DecidableEq α] (l : List (α × β))
    (k k' : α) (h : k' ≠ k) : alGet (alDel l k) k' = alGet l k' := by
  induction l with
  | nil => rfl
  | cons e rest ih =>
    by_cases he : e.1 = k
    · have hne : e.1 ≠ k' := fun hc => h (hc ▸ he)
      rw [alDel_cons_self e rest k he, ih, alGet_cons_ne e rest k' hne]
    · by_cases he' : e.1 = k'
      · rw [alDel_cons_ne e rest k he, alGet_cons_self e (alDel rest k) k' he',
          alGet_cons_self e rest k' he']
      · rw [alDel_cons_ne e rest k he, alGet_cons_ne e (alDel rest k) k' he', ih,
          alGet_cons_ne e rest k' he']

theorem alGet_alSet_self {α β : Type} [DecidableEq α] (l : List (α × β))
    (k : α) (v : β) : alGet (alSet l k v) k = some v :=
  alGet_cons_self (k, v) (alDel l k) k rfl

theorem alGet_alSet_ne {α β : Type} [DecidableEq α] (l : List (α × β))
    (k k' : α) (v : β) (h : k' ≠ k) : alGet (alSet l k v) k' = alGet l k' := by
  have h1 : alGet (alSet l k v) k' = alGet (alDel l k) k' :=
    alGet_cons_ne (k, v) (alDel l k) k' (fun hc => h hc.symm)
  rw [h1, alGet_alDel_ne l k k' h]

theorem not_mem_setDiscard (l : List Int) (x : Int) : x ∉ setDiscard l x := by
  intro hx
  have := (List.mem_filter.mp hx).2
  simp at this

theorem mem_setAdd_self (l : List Int) (x : Int) : x ∈ setAdd l x := by
  unfold setAdd
  split
  · assumption
  · exact List.mem_cons_self x l

theorem mem_setAdd_of_ne (l : List Int) (x y : Int) (h : y ≠ x) :
    y ∈ setAdd l x ↔ y ∈ l := by
  unfold setAdd
  split
  · exact Iff.rfl
  · simp [List.mem_cons, h]

theorem filter_fst_cons_self {γ : Type} (e : (Int × Int) × γ)
    (l : List ((Int × Int) × γ)) (old : Int) (h : e.1.1 = old) :
    (e :: l).filter (fun e => decide (e.1.1 ≠ old))
      = l.filter (fun e => decide (e.1.1 ≠ old)) := by
  simp [List.filter_cons, h]

theorem filter_fst_cons_ne {γ : Type} (e : (Int × Int) × γ)
    (l : List ((Int × Int) × γ)) (old : Int) (h : e.1.1 ≠ old) :
    (e :: l).filter (fun e => decide (e.1.1 ≠ old))
      = e :: l.filter (fun e => decide (e.1.1 ≠ old)) := by
  simp [List.filter_cons, h]

/-- Every entry surviving `filter (e.1.1 ≠ old)` has a key whose chat part
differs from `old`, so lookups at an `old`-keyed pair fail. -/
theorem alGet_filter_fst_self {γ : Type} (l : List ((Int × Int) × γ))
    (old u : Int) :
    alGet (l.filter (fun e => decide (e.1.1 ≠ old))) (old, u) = none := by
  induction l with
  | nil => rfl
  | cons e rest ih =>
    by_cases he : e.1.1 = old
    · rw [filter_fst_cons_self e rest old he, ih]
    · have hek : e.1 ≠ ((old : Int), u) := fun hc => he (congrArg Prod.fst hc)
      rw [filter_fst_cons_ne e rest old he,
        alGet_cons_ne e (rest.filter (fun e => decide (e.1.1 ≠ old))) (old, u) hek,
        ih]

theorem alGet_filter_fst_ne {γ : Type} (l : List ((Int × Int) × γ))
    (old : Int) (k : Int × Int) (h : k.1 ≠ old) :
    alGet (l.filter (fun e => decide (e.1.1 ≠ old))) k = alGet l k := by
  induction l with
  | nil => rfl
  | cons e rest ih =>
    by_cases he : e.1.1 = old
    · have hek : e.1 ≠ k := fun hc => h (by rw [← hc]; exact he)
      rw [filter_fst_cons_self e rest old he, ih, alGet_cons_ne e rest k hek]
    · by_cases hk : e.1 = k
      · rw [filter_fst_cons_ne e rest old he,
          alGet_cons_self e (rest.filter (fun e => decide (e.1.1 ≠ old))) k hk,
          alGet_cons_self e rest k hk]
      · rw [filter_fst_cons_ne e rest old he,
          alGet_cons_ne e (rest.filter (fun e => decide (e.1.1 ≠ old))) k hk, ih,
          alGet_cons_ne e rest k hk]

/-- No entry of the migrated LINK_SPAM_CACHE is keyed by the old chat id. -/
theorem alGet_map_migrate_old {γ : Type} (l : List ((Int × Int) × γ))
    (old new u : Int) (h : old ≠ new) :
    alGet (l.map (fun e => (((if e.1.1 = old then new else e.1.1), e.1.2), e.2)))
      (old, u) = none := by
  induction l with
  | nil => rfl
  | cons e rest ih =>
    rw [List.map_cons]
    have hkey : (((if e.1.1 = old then new else e.1.1), e.1.2), e.2).1
        ≠ ((old : Int), u) := by
      intro hc
      have h1 : (if e.1.1 = old then new else e.1.1) = old := congrArg Prod.fst hc
      by_cases he : e.1.1 = old
      · rw [if_pos he] at h1
        exact h h1.symm
      · rw [if_neg he] at h1
        exact he h1
    rw [alGet_cons_ne _ _ _ hkey, ih]

/-- When the new id had no entry, the migrated cache holds at the new key
exactly what the old key held. -/
theorem alGet_map_migrate_new {γ : Type} (l : List ((Int × Int) × γ))
    (old new u : Int) (_h : old ≠ new) :
    alGet l (new, u) = none →
    alGet (l.map (fun e => (((if e.1.1 = old then new else e.1.1), e.1.2), e.2)))
      (new, u) = alGet l (old, u) := by
  induction l with
  | nil => intro _; rfl
  | cons e rest ih =>
    intro hnone
    rw [List.map_cons]
    by_cases he : e.1.1 = old
    · by_cases hu : e.1.2 = u
      · have hk1 : (((if e.1.1 = old then new else e.1.1), e.1.2), e.2).1
            = ((new : Int), u) := by
          rw [if_pos he, hu]
        have hk2 : e.1 = ((old : Int), u) := by
          rw [← he, ← hu]
        rw [alGet_cons_self _ _ _ hk1, alGet_cons_self e rest _ hk2]
      · have hk1 : (((if e.1.1 = old then new else e.1.1), e.1.2), e.2).1
            ≠ ((new : Int), u) := by
          rw [if_pos he]
          exact fun hc => hu (congrArg Prod.snd hc)
        have hkold : e.1 ≠ ((old : Int), u) := fun hc => hu (congrArg Prod.snd hc)
        have hknew : e.1 ≠ ((new : Int), u) := fun hc => hu (congrArg Prod.snd hc)
        rw [alGet_cons_ne _ _ _ hk1, alGet_cons_ne e rest _ hkold]
        exact ih (by rwa [alGet_cons_ne e rest _ hknew] at hnone)
    · have hknew : e.1 ≠ ((new : Int), u) := by
        intro hc
        rw [alGet_cons_self e rest _ hc] at hnone
        exact Option.noConfusion hnone
      have hkold : e.1 ≠ ((old : Int), u) := fun hc => he (congrArg Prod.fst hc)
      have hk1 : (((if e.1.1 = old then new else e.1.1), e.1.2), e.2).1
          ≠ ((new : Int), u) := by
        rw [if_neg he]
        exact fun hc => hknew hc
      rw [alGet_cons_ne _ _ _ hk1, alGet_cons_ne e rest _ hkold]
      exact ih (by rwa [alGet_cons_ne e rest _ hknew] at hnone)

-- ===== concrete fixtures for closed runs =====

/-- A benign environment: the bot is a full admin everywhere, the message
author is a plain member, the DB store responds, and deletion, restriction
and sends succeed. -/
def demo_env : Env :=
  { getMember := fun _ => MemberResult.ok ("administrator") true true,
    userMember := fun _ _ => MemberResult.ok ("member") false false,
    dbTimeout := false, restrictOk := true, deleteOk := true,
    sendOk := true, sendMsgId := 1 }

def empty_state : BotState := ⟨[], [], [], [], [], [], [], []⟩

/-- The spec's example scenario: user 7 in supergroup -1 with no prior
record, link violations recorded at t = 0, 10, 20. -/
def c1_run1 : Bool × BotState × List Effect :=
  link_spam_control 0 (-1) ("supergroup") 7 demo_env empty_state

def c1_run2 : Bool × BotState × List Effect :=
  link_spam_control 10 (-1) ("supergroup") 7 demo_env c1_run1.2.1

def c1_run3 : Bool × BotState × List Effect :=
  link_spam_control 20 (-1) ("supergroup") 7 demo_env c1_run2.2.1

-- ===== claim theorems: spam counter =====

/-- C1: Three consecutive link violations by a fresh user at t = 0, 10, 20
in a supergroup are claimed to produce counts 1, 2, 3, with the third
triggering exactly one restriction call and clearing the persisted counter.
The code instead leaves the counter at 1 after all three violations and
performs no restriction call at all: `link_spam_control`'s early return
`now - last_time < MUTE_SECONDS → False` (bot.py lines 690-691, using the
mute-duration constant) discards every violation that arrives within 600s
of the previous one without incrementing.  This theorem evaluates the code
at the claim's own input, exhibiting the divergence (counts 1, 1, 1;
muted = false thrice; zero platform calls, in particular zero
restrict_chat_member calls). -/
theorem C1_rapid_violations_never_escalate :
    c1_run1.1 = false ∧ c1_run2.1 = false ∧ c1_run3.1 = false ∧
    (alGet c1_run1.2.1.LINK_SPAM_CACHE (-1, 7)).map SpamEntry.count = some 1 ∧
    (alGet c1_run2.2.1.LINK_SPAM_CACHE (-1, 7)).map SpamEntry.count = some 1 ∧
    (alGet c1_run3.2.1.LINK_SPAM_CACHE (-1, 7)).map SpamEntry.count = some 1 ∧
    c1_run1.2.2 = [] ∧ c1_run2.2.2 = [] ∧ c1_run3.2.2 = [] := by
  decide

/-- C5: A violation recorded more than SPAM_RESET_SECONDS after the
previous one resets the count to 1 rather than incrementing it, both when
the previous counter sits in the in-memory cache (first conjunct) and when
it is only found via the persistent-store fallback read (second conjunct).
The `mute_until ≤ now` premise of the cache path says no mute window is
open (every reachable entry satisfies it when the window has expired, since
mute_until is at most last_time + MUTE_SECONDS). -/
theorem C5_reset_window_resets_count_to_one (now chat_id : Int)
    (chat_type : String) (user_id : Int) (env : Env) (s : BotState) :
    (∀ d : SpamEntry, alGet s.LINK_SPAM_CACHE (chat_id, user_id) = some d →
       d.mute_until ≤ now →
       now - d.last_time > SPAM_RESET_SECONDS →
       (alGet (link_spam_control now chat_id chat_type user_id env s).2.1.LINK_SPAM_CACHE
          (chat_id, user_id)).map SpamEntry.count = some 1) ∧
    (∀ (c0 : Nat) (lt : Int),
       alGet s.LINK_SPAM_CACHE (chat_id, user_id) = none →
       env.dbTimeout = false →
       alGet s.db_link_spam (chat_id, user_id) = some (c0, lt) →
       now - lt > SPAM_RESET_SECONDS →
       (alGet (link_spam_control now chat_id chat_type user_id env s).2.1.LINK_SPAM_CACHE
          (chat_id, user_id)).map SpamEntry.count = some 1) := by
  constructor
  · intro d hd hmute hwin
    unfold SPAM_RESET_SECONDS at hwin
    have h1 : ¬(d.mute_until ≠ 0 ∧ now < d.mute_until) := by
      rintro ⟨_, hlt⟩
      omega
    have h2 : ¬(now - d.last_time < MUTE_SECONDS) := by
      unfold MUTE_SECONDS
      omega
    have h3 : now - d.last_time > SPAM_RESET_SECONDS := by
      unfold SPAM_RESET_SECONDS
      omega
    unfold link_spam_control
    rw [hd]
    simp only [if_neg h1, if_neg h2, if_pos h3]
    unfold spam_finish
    rw [if_pos (by decide : (1 : Nat) < LINK_LIMIT)]
    simp only []
    rw [alGet_alSet_self]
    rfl
  · intro c0 lt hd hdbt hrow hwin
    unfold SPAM_RESET_SECONDS at hwin
    have h2 : ¬(now - lt < MUTE_SECONDS) := by
      unfold MUTE_SECONDS
      omega
    have h3 : now - lt > SPAM_RESET_SECONDS := by
      unfold SPAM_RESET_SECONDS
      omega
    unfold link_spam_control
    rw [hd]
    simp only [hdbt, Bool.false_eq_true, if_false, hrow]
    simp only [if_neg h2, if_pos h3]
    unfold spam_finish
    rw [if_pos (by decide : (1 : Nat) < LINK_LIMIT)]
    simp only []
    rw [alGet_alSet_self]
    rfl

def c5_state_cache : BotState :=
  ⟨[], [], [], [], [(((-1 : Int), (7 : Int)), ⟨2, 0, 0⟩)], [], [], []⟩

def c5_state_db : BotState :=
  ⟨[], [], [], [], [], [], [], [(((-1 : Int), (7 : Int)), (2, 0))]⟩

/-- Witness for C5: both paths at now = 3601 with a count-2 record from
t = 0 reset to count 1. -/
theorem C5_reset_window_resets_count_to_one_witness :
    ((3601 : Int) - 0 > SPAM_RESET_SECONDS) ∧
    (alGet (link_spam_control 3601 (-1) ("supergroup") 7 demo_env
        c5_state_cache).2.1.LINK_SPAM_CACHE (-1, 7)).map SpamEntry.count = some 1 ∧
    (alGet (link_spam_control 3601 (-1) ("supergroup") 7 demo_env
        c5_state_db).2.1.LINK_SPAM_CACHE (-1, 7)).map SpamEntry.count = some 1 :=
  ⟨by decide,
   (C5_reset_window_resets_count_to_one 3601 (-1) ("supergroup") 7 demo_env
      c5_state_cache).1 ⟨2, 0, 0⟩ (by decide) (by decide) (by decide),
   (C5_reset_window_resets_count_to_one 3601 (-1) ("supergroup") 7 demo_env
      c5_state_db).2 2 0 (by decide) (by decide) (by decide) (by decide)⟩

/-- C6: While a mute window is open (`now < mute_until` on the cached
entry, mute_until nonzero), recording another violation returns muted=true,
changes no state (in particular does not increment the counter) and issues
no platform call (in particular no second restriction call). -/
theorem C6_open_mute_window_is_idempotent (now chat_id : Int)
    (chat_type : String) (user_id : Int) (env : Env) (s : BotState)
    (d : SpamEntry)
    (hd : alGet s.LINK_SPAM_CACHE (chat_id, user_id) = some d)
    (h0 : d.mute_until ≠ 0) (hlt : now < d.mute_until) :
    link_spam_control now chat_id chat_type user_id env s = (true, s, []) := by
  unfold link_spam_control
  rw [hd]
  simp only [if_pos (And.intro h0 hlt)]

def c6_state : BotState :=
  ⟨[], [], [], [], [(((-1 : Int), (7 : Int)), ⟨3, 1400, 2000⟩)], [], [], []⟩

/-- Witness for C6: user 7 muted until t = 2000; a violation at t = 1500
reports muted without touching anything. -/
theorem C6_open_mute_window_is_idempotent_witness :
    alGet c6_state.LINK_SPAM_CACHE (-1, 7) = some ⟨3, 1400, 2000⟩ ∧
    ((1500 : Int) < 2000) ∧
    link_spam_control 1500 (-1) ("supergroup") 7 demo_env c6_state
      = (true, c6_state, []) :=
  ⟨by decide, by decide,
   C6_open_mute_window_is_idempotent 1500 (-1) ("supergroup") 7 demo_env
     c6_state ⟨3, 1400, 2000⟩ (by decide) (by decide) (by decide)⟩

-- ===== claim theorems: permission cache =====

def err_env : Env := { demo_env with getMember := fun _ => MemberResult.error }

def c2_state : BotState :=
  ⟨[], [5], [((5 : Int), [9])], [((5 : Int), [11])], [], [], [], []⟩

/-- C2 counterexample: The claim says a transient API error leaves the
cached permission state unchanged.  In bot.py the live check's
`except Exception` clause (lines 268-273) makes no distinction between
transient and permanent errors (`MemberResult.error` covers both): with
chat 5 cached as bot-admin and a user-admin set present, one erroring live
check empties both caches, refuting the claim at this input. -/
theorem C2_transient_error_clears_cache_cex :
    (ensure_bot_admin_live 1 1000 5 err_env c2_state).2.1.BOT_ADMIN_CACHE
        ≠ c2_state.BOT_ADMIN_CACHE ∧
    (ensure_bot_admin_live 1 1000 5 err_env c2_state).2.1.USER_ADMIN_CACHE
        ≠ c2_state.USER_ADMIN_CACHE ∧
    (ensure_bot_admin_live 1 1000 5 err_env c2_state).1 = false := by
  decide

/-- C2 amended: A live bot-authorization check that fails with ANY
error other than a chat-migration signal — transient and permanent alike —
clears the chat's in-memory permission state (bot-admin flag, user-admin
set, reminder-message list) and reports unauthorized; the spam cache, job
queue and both persisted tables are left unchanged, and exactly the one
failed platform call was made. -/
theorem C2_any_error_clears_permission_state (fuel : Nat) (now chat_id : Int)
    (env : Env) (s : BotState)
    (h : ¬(now - ((alGet s.ADMIN_VERIFY_CACHE chat_id).getD 0) < ADMIN_VERIFY_SECONDS))
    (herr : env.getMember chat_id = MemberResult.error) :
    (ensure_bot_admin_live fuel now chat_id env s).1 = false ∧
    chat_id ∉ (ensure_bot_admin_live fuel now chat_id env s).2.1.BOT_ADMIN_CACHE ∧
    alGet (ensure_bot_admin_live fuel now chat_id env s).2.1.USER_ADMIN_CACHE
      chat_id = none ∧
    alGet (ensure_bot_admin_live fuel now chat_id env s).2.1.REMINDER_MESSAGES
      chat_id = none ∧
    (ensure_bot_admin_live fuel now chat_id env s).2.1.LINK_SPAM_CACHE
      = s.LINK_SPAM_CACHE ∧
    (ensure_bot_admin_live fuel now chat_id env s).2.1.jobs = s.jobs ∧
    (ensure_bot_admin_live fuel now chat_id env s).2.1.db_groups = s.db_groups ∧
    (ensure_bot_admin_live fuel now chat_id env s).2.1.db_link_spam
      = s.db_link_spam ∧
    (ensure_bot_admin_live fuel now chat_id env s).2.2
      = [Effect.getChatMemberBot chat_id] := by
  have hstep : ensure_bot_admin_live fuel now chat_id env s =
      (false,
       ⟨alSet s.ADMIN_VERIFY_CACHE chat_id now,
        setDiscard s.BOT_ADMIN_CACHE chat_id,
        alDel s.USER_ADMIN_CACHE chat_id,
        alDel s.REMINDER_MESSAGES chat_id,
        s.LINK_SPAM_CACHE, s.jobs, s.db_groups, s.db_link_spam⟩,
       [Effect.getChatMemberBot chat_id]) := by
    unfold ensure_bot_admin_live
    simp only [if_neg h]
    rw [herr]
  rw [hstep]
  refine ⟨rfl, not_mem_setDiscard s.BOT_ADMIN_CACHE chat_id,
    alGet_alDel_self s.USER_ADMIN_CACHE chat_id,
    alGet_alDel_self s.REMINDER_MESSAGES chat_id, rfl, rfl, rfl, rfl, rfl⟩

/-- Witness for C2 (amended): one erroring live check on chat 5. -/
theorem C2_any_error_clears_permission_state_witness :
    ¬((1000 : Int) - ((alGet c2_state.ADMIN_VERIFY_CACHE 5).getD 0)
        < ADMIN_VERIFY_SECONDS) ∧
    err_env.getMember 5 = MemberResult.error ∧
    (5 : Int) ∉ (ensure_bot_admin_live 1 1000 5 err_env c2_state).2.1.BOT_ADMIN_CACHE :=
  ⟨by decide, by decide,
   (C2_any_error_clears_permission_state 1 1000 5 err_env c2_state
      (by decide) (by decide)).2.1⟩

def c3_env : Env :=
  { demo_env with getMember := fun c =>
      if c = -100 then MemberResult.migrated (-200)
      else MemberResult.ok ("administrator") true true }

def c3_state : BotState :=
  ⟨[], [-100], [((-100 : Int), [9])], [((-100 : Int), [11])],
   [(((-100 : Int), (7 : Int)), ⟨2, 50, 0⟩)],
   [⟨JobKind.adminReminder, "", 300, -100, 1, 5, "admin_reminder"⟩],
   [((-100 : Int), (true, 10))],
   [(((-100 : Int), (7 : Int)), (2, 50))]⟩

/-- C3 counterexample: Chat -100 migrates to -200.  The claim says every
persisted record keyed by the old id afterwards has an equivalent record
under the new id, and scheduled jobs are migrated.  The code deletes the
persisted spam counter for (-100, 7) without re-creating it under -200
(bot.py lines 259-264 issue only a DELETE on link_spam), and never touches
the job queue: the pending reminder job stays keyed to -100. -/
theorem C3_migration_leaves_gaps_cex :
    alGet c3_state.db_link_spam (-100, 7) = some (2, 50) ∧
    alGet (ensure_bot_admin_live 2 1000 (-100) c3_env c3_state).2.1.db_link_spam
      (-100, 7) = none ∧
    alGet (ensure_bot_admin_live 2 1000 (-100) c3_env c3_state).2.1.db_link_spam
      (-200, 7) = none ∧
    (ensure_bot_admin_live 2 1000 (-100) c3_env c3_state).2.1.jobs
      = [⟨JobKind.adminReminder, "", 300, -100, 1, 5, "admin_reminder"⟩] := by
  decide

/-- C3 amended: On a chat-migration signal the live check (1) performs
the migration step and retries exactly once against the new id, and the
migration step, for every state: (2-3) re-keys the bot-admin flag,
(4-7) moves the user-admin set and reminder-message list to the new id,
leaving nothing under the old id, (8-9) re-keys the in-memory spam-counter
entries, (10-11) replaces the old persisted group row with one under the
new id, (12-13) deletes the persisted spam-counter rows of the old id
WITHOUT re-creating them under the new id (rows already under the new id
are untouched), and (14) does not migrate scheduled jobs. -/
theorem C3_migration_transfer (fuel : Nat) (now old new : Int) (env : Env)
    (s : BotState)
    (h : ¬(now - ((alGet s.ADMIN_VERIFY_CACHE old).getD 0) < ADMIN_VERIFY_SECONDS))
    (hm : env.getMember old = MemberResult.migrated new)
    (hne : old ≠ new) :
    (ensure_bot_admin_live (fuel + 1) now old env s =
      ((ensure_bot_admin_live fuel now new env
          (migrate_ram_db old new now
            { s with ADMIN_VERIFY_CACHE := alSet s.ADMIN_VERIFY_CACHE old now })).1,
       (ensure_bot_admin_live fuel now new env
          (migrate_ram_db old new now
            { s with ADMIN_VERIFY_CACHE := alSet s.ADMIN_VERIFY_CACHE old now })).2.1,
       Effect.getChatMemberBot old ::
         (ensure_bot_admin_live fuel now new env
            (migrate_ram_db old new now
              { s with ADMIN_VERIFY_CACHE := alSet s.ADMIN_VERIFY_CACHE old now })).2.2)) ∧
    (∀ t : BotState, old ∉ (migrate_ram_db old new now t).BOT_ADMIN_CACHE) ∧
    (∀ t : BotState, old ∈ t.BOT_ADMIN_CACHE →
       new ∈ (migrate_ram_db old new now t).BOT_ADMIN_CACHE) ∧
    (∀ t : BotState, alGet (migrate_ram_db old new now t).USER_ADMIN_CACHE old = none) ∧
    (∀ t : BotState, alGet (migrate_ram_db old new now t).USER_ADMIN_CACHE new
       = some ((alGet t.USER_ADMIN_CACHE old).getD [])) ∧
    (∀ t : BotState, alGet (migrate_ram_db old new now t).REMINDER_MESSAGES old = none) ∧
    (∀ t : BotState, alGet (migrate_ram_db old new now t).REMINDER_MESSAGES new
       = some ((alGet t.REMINDER_MESSAGES old).getD [])) ∧
    (∀ (t : BotState) (u : Int),
       alGet (migrate_ram_db old new now t).LINK_SPAM_CACHE (old, u) = none) ∧
    (∀ (t : BotState) (u : Int), alGet t.LINK_SPAM_CACHE (new, u) = none →
       alGet (migrate_ram_db old new now t).LINK_SPAM_CACHE (new, u)
         = alGet t.LINK_SPAM_CACHE (old, u)) ∧
    (∀ t : BotState, alGet (migrate_ram_db old new now t).db_groups old = none) ∧
    (∀ t : BotState, alGet (migrate_ram_db old new now t).db_groups new
       = some (true, now)) ∧
    (∀ (t : BotState) (u : Int),
       alGet (migrate_ram_db old new now t).db_link_spam (old, u) = none) ∧
    (∀ (t : BotState) (u : Int),
       alGet (migrate_ram_db old new now t).db_link_spam (new, u)
         = alGet t.db_link_spam (new, u)) ∧
    (∀ t : BotState, (migrate_ram_db old new now t).jobs = t.jobs) := by
  refine ⟨?_, ?_, ?_, ?_, ?_, ?_, ?_, ?_, ?_, ?_, ?_, ?_, ?_, ?_⟩
  · conv_lhs => rw [ensure_bot_admin_live.eq_def]
    simp only [if_neg h, hm]
  · intro t
    unfold migrate_ram_db
    by_cases hb : old ∈ t.BOT_ADMIN_CACHE
    · simp only [if_pos hb]
      intro hmem
      exact not_mem_setDiscard t.BOT_ADMIN_CACHE old
        ((mem_setAdd_of_ne (setDiscard t.BOT_ADMIN_CACHE old) new old hne).mp hmem)
    · simp only [if_neg hb]
      exact hb
  · intro t hb
    unfold migrate_ram_db
    simp only [if_pos hb]
    exact mem_setAdd_self (setDiscard t.BOT_ADMIN_CACHE old) new
  · intro t
    have h1 := alGet_alSet_ne (alDel t.USER_ADMIN_CACHE old) new old
      ((alGet t.USER_ADMIN_CACHE old).getD []) hne
    rw [show alGet (migrate_ram_db old new now t).USER_ADMIN_CACHE old
        = alGet (alSet (alDel t.USER_ADMIN_CACHE old) new
            ((alGet t.USER_ADMIN_CACHE old).getD [])) old from rfl,
      h1, alGet_alDel_self]
  · intro t
    exact alGet_alSet_self (alDel t.USER_ADMIN_CACHE old) new
      ((alGet t.USER_ADMIN_CACHE old).getD [])
  · intro t
    have h1 := alGet_alSet_ne (alDel t.REMINDER_MESSAGES old) new old
      ((alGet t.REMINDER_MESSAGES old).getD []) hne
    rw [show alGet (migrate_ram_db old new now t).REMINDER_MESSAGES old
        = alGet (alSet (alDel t.REMINDER_MESSAGES old) new
            ((alGet t.REMINDER_MESSAGES old).getD [])) old from rfl,
      h1, alGet_alDel_self]
  · intro t
    exact alGet_alSet_self (alDel t.REMINDER_MESSAGES old) new
      ((alGet t.REMINDER_MESSAGES old).getD [])
  · intro t u
    exact alGet_map_migrate_old t.LINK_SPAM_CACHE old new u hne
  · intro t u hnone
    exact alGet_map_migrate_new t.LINK_SPAM_CACHE old new u hne hnone
  · intro t
    exact alGet_alDel_self (alSet t.db_groups new (true, now)) old
  · intro t
    have h1 := alGet_alDel_ne (alSet t.db_groups new (true, now)) old new (Ne.symm hne)
    rw [show alGet (migrate_ram_db old new now t).db_groups new
        = alGet (alDel (alSet t.db_groups new (true, now)) old) new from rfl,
      h1, alGet_alSet_self]
  · intro t u
    exact alGet_filter_fst_self t.db_link_spam old u
  · intro t u
    exact alGet_filter_fst_ne t.db_link_spam old (new, u) (Ne.symm hne)
  · intro t
    rfl

/-- Witness for C3 (amended): the concrete migration of chat -100 to -200. -/
theorem C3_migration_transfer_witness :
    c3_env.getMember (-100) = MemberResult.migrated (-200) ∧
    ((-100 : Int) ≠ (-200 : Int)) ∧
    (-100 : Int) ∉ (migrate_ram_db (-100) (-200) 1000 c3_state).BOT_ADMIN_CACHE :=
  ⟨by decide, by decide,
   (C3_migration_transfer 1 1000 (-100) (-200) c3_env c3_state
      (by decide) (by decide) (by decide)).2.1 c3_state⟩

/-- C9: The verification throttle: within ADMIN_VERIFY_SECONDS of the
recorded timestamp, `ensure_bot_admin_live` answers purely from
BOT_ADMIN_CACHE — identical state, no platform call (first conjunct); and
whenever a live check is attempted (non-migrated outcomes: success,
non-admin or error) the timestamp was recorded as `now` regardless of the
outcome, so any call in the next ADMIN_VERIFY_SECONDS takes the first
branch (second conjunct). -/
theorem C9_verify_interval_answers_from_cache (fuel : Nat) (now chat_id : Int)
    (env : Env) (s : BotState) :
    ((now - ((alGet s.ADMIN_VERIFY_CACHE chat_id).getD 0) < ADMIN_VERIFY_SECONDS) →
       ensure_bot_admin_live fuel now chat_id env s
         = (decide (chat_id ∈ s.BOT_ADMIN_CACHE), s, [])) ∧
    (¬(now - ((alGet s.ADMIN_VERIFY_CACHE chat_id).getD 0) < ADMIN_VERIFY_SECONDS) →
       member_is_migrated (env.getMember chat_id) = false →
       alGet (ensure_bot_admin_live fuel now chat_id env s).2.1.ADMIN_VERIFY_CACHE
         chat_id = some now) := by
  constructor
  · intro h
    unfold ensure_bot_admin_live
    simp only [if_pos h]
  · intro h hmig
    unfold ensure_bot_admin_live
    simp only [if_neg h]
    cases henv : env.getMember chat_id with
    | migrated new_id =>
      rw [henv] at hmig
      simp [member_is_migrated] at hmig
    | error =>
      exact alGet_alSet_self s.ADMIN_VERIFY_CACHE chat_id now
    | ok status cd cr =>
      dsimp only
      cases hb : is_admin_status status && cd
      · exact alGet_alSet_self s.ADMIN_VERIFY_CACHE chat_id now
      · exact alGet_alSet_self s.ADMIN_VERIFY_CACHE chat_id now

def c9_state : BotState := ⟨[((5 : Int), (900 : Int))], [5], [], [], [], [], [], []⟩

/-- Witness for C9: chat 5 verified at t = 900; a call at t = 1000 answers
true from cache with untouched state and no platform call, and one at
t = 1300 (interval elapsed, live check errors) re-records the timestamp. -/
theorem C9_verify_interval_answers_from_cache_witness :
    ((1000 : Int) - ((alGet c9_state.ADMIN_VERIFY_CACHE 5).getD 0)
        < ADMIN_VERIFY_SECONDS) ∧
    ensure_bot_admin_live 1 1000 5 err_env c9_state
      = (decide ((5 : Int) ∈ c9_state.BOT_ADMIN_CACHE), c9_state, []) ∧
    alGet (ensure_bot_admin_live 1 1300 5 err_env c9_state).2.1.ADMIN_VERIFY_CACHE 5
      = some 1300 :=
  ⟨by decide,
   (C9_verify_interval_answers_from_cache 1 1000 5 err_env c9_state).1 (by decide),
   (C9_verify_interval_answers_from_cache 1 1300 5 err_env c9_state).2
     (by decide) (by decide)⟩

-- ===== claim theorems: moderation pipeline =====

/-- C7: A group message in which no link is detected is a complete
no-op: `auto_delete_links` returns before any cache mutation, any
spam-counter mutation and any platform call — identical state, empty
effect list.  (The non-group and owner guards return the same no-op, so the
equation holds for every message with `has_link_msg m = false`.) -/
theorem C7_no_link_is_complete_noop (owner_id : Int) (fuel : Nat) (now : Int)
    (env : Env) (m : MsgCtx) (s : BotState) (h : has_link_msg m = false) :
    auto_delete_links owner_id fuel now env m s = (s, []) := by
  simp [auto_delete_links, h]

def c7_msg : MsgCtx := ⟨-1, "group", 7, [], [], "hello world", ""⟩

/-- Witness for C7: an ordinary group text message without links. -/
theorem C7_no_link_is_complete_noop_witness :
    has_link_msg c7_msg = false ∧
    auto_delete_links 42 1 0 demo_env c7_msg empty_state = (empty_state, []) :=
  ⟨by decide, C7_no_link_is_complete_noop 42 1 0 demo_env c7_msg empty_state
    (by decide)⟩

-- ===== claim theorems: reminder cancellation (C8) =====

theorem admin_reminder_effects (env : Env) (j : Job) (s : BotState) :
    ∀ eff ∈ (admin_reminder env j s).2,
      eff = Effect.getChatMemberBot j.chat_id ∨
      eff = Effect.sendMessage j.chat_id ("reminder") := by
  intro eff heff
  unfold admin_reminder at heff
  split at heff
  · simp at heff
  · split at heff
    · simp at heff
    · split at heff
      · split at heff
        · simp at heff
          exact Or.inl heff
        · split at heff
          · simp at heff
            rcases heff with h | h
            · exact Or.inl h
            · exact Or.inr h
          · simp at heff
            rcases heff with h | h
            · exact Or.inl h
            · exact Or.inr h
      · simp at heff
        exact Or.inl heff

theorem leave_if_not_admin_effects (now : Int) (env : Env) (j : Job)
    (s : BotState) :
    ∀ eff ∈ (leave_if_not_admin now env j s).2,
      eff = Effect.getChatMemberBot j.chat_id ∨
      eff = Effect.leaveChat j.chat_id := by
  intro eff heff
  unfold leave_if_not_admin leave_chat_cleanup at heff
  split at heff
  · simp at heff
  · split at heff
    · split at heff
      · simp at heff
        exact Or.inl heff
      · simp at heff
        rcases heff with h | h
        · exact Or.inl h
        · exact Or.inr h
    · simp at heff
      rcases heff with h | h
      · exact Or.inl h
      · exact Or.inr h

/-- An `admin_reminder` job for a chat where the platform reports the bot
admin sends nothing. -/
theorem admin_reminder_admin_no_send (env : Env) (j : Job)
    (hadm : member_is_admin (env.getMember j.chat_id) = true) (s : BotState) :
    Effect.sendMessage j.chat_id ("reminder") ∉ (admin_reminder env j s).2 := by
  unfold admin_reminder
  by_cases h0 : j.chat_id = 0
  · simp [h0]
  · rw [if_neg h0]
    by_cases hmem : j.chat_id ∈ s.BOT_ADMIN_CACHE
    · rw [if_pos hmem]
      simp
    · rw [if_neg hmem]
      cases henv : env.getMember j.chat_id with
      | ok status cd cr =>
        have hst : is_admin_status status = true := by
          rw [henv] at hadm
          exact hadm
        dsimp only
        rw [hst]
        simp
      | migrated nid =>
        rw [henv] at hadm
        simp [member_is_admin] at hadm
      | error =>
        rw [henv] at hadm
        simp [member_is_admin] at hadm

/-- A `leave_if_not_admin` job for a chat where the platform reports the
bot admin never leaves. -/
theorem leave_if_not_admin_admin_no_leave (now : Int) (env : Env) (j : Job)
    (hadm : member_is_admin (env.getMember j.chat_id) = true) (s : BotState) :
    Effect.leaveChat j.chat_id ∉ (leave_if_not_admin now env j s).2 := by
  unfold leave_if_not_admin
  by_cases h0 : j.chat_id = 0
  · simp [h0]
  · rw [if_neg h0]
    cases henv : env.getMember j.chat_id with
    | ok status cd cr =>
      have hst : is_admin_status status = true := by
        rw [henv] at hadm
        exact hadm
      dsimp only
      rw [hst]
      simp
    | migrated nid =>
      rw [henv] at hadm
      simp [member_is_admin] at hadm
    | error =>
      rw [henv] at hadm
      simp [member_is_admin] at hadm

theorem admin_reminder_safe (env : Env) (c : Int)
    (hadm : member_is_admin (env.getMember c) = true) (j : Job) (s : BotState) :
    Effect.sendMessage c ("reminder") ∉ (admin_reminder env j s).2 ∧
    Effect.leaveChat c ∉ (admin_reminder env j s).2 := by
  by_cases hc : j.chat_id = c
  · subst hc
    refine ⟨admin_reminder_admin_no_send env j hadm s, ?_⟩
    intro hmem
    rcases admin_reminder_effects env j s _ hmem with h | h
    · exact Effect.noConfusion h
    · exact Effect.noConfusion h
  · constructor
    · intro hmem
      rcases admin_reminder_effects env j s _ hmem with h | h
      · exact Effect.noConfusion h
      · injection h with h1 h2
        exact hc h1.symm
    · intro hmem
      rcases admin_reminder_effects env j s _ hmem with h | h
      · exact Effect.noConfusion h
      · exact Effect.noConfusion h

theorem leave_if_not_admin_safe (now : Int) (env : Env) (c : Int)
    (hadm : member_is_admin (env.getMember c) = true) (j : Job) (s : BotState) :
    Effect.sendMessage c ("reminder") ∉ (leave_if_not_admin now env j s).2 ∧
    Effect.leaveChat c ∉ (leave_if_not_admin now env j s).2 := by
  by_cases hc : j.chat_id = c
  · subst hc
    refine ⟨?_, leave_if_not_admin_admin_no_leave now env j hadm s⟩
    intro hmem
    rcases leave_if_not_admin_effects now env j s _ hmem with h | h
    · exact Effect.noConfusion h
    · exact Effect.noConfusion h
  · constructor
    · intro hmem
      rcases leave_if_not_admin_effects now env j s _ hmem with h | h
      · exact Effect.noConfusion h
      · exact Effect.noConfusion h
    · intro hmem
      rcases leave_if_not_admin_effects now env j s _ hmem with h | h
      · exact Effect.noConfusion h
      · injection h with h1
        exact hc h1.symm

theorem trace_step_safe (now : Int) (env : Env) (c : Int)
    (hadm : member_is_admin (env.getMember c) = true) (s : BotState)
    (e : TraceEvent) :
    Effect.sendMessage c ("reminder") ∉ (trace_step now env s e).2 ∧
    Effect.leaveChat c ∉ (trace_step now env s e).2 := by
  cases e with
  | promote c' =>
    constructor
    · intro hmem
      simp [trace_step, on_promoted, List.mem_append, List.mem_map] at hmem
    · intro hmem
      simp [trace_step, on_promoted, List.mem_append, List.mem_map] at hmem
  | fire i =>
    cases hj : s.jobs[i]? with
    | none =>
      constructor
      · intro hmem
        simp [trace_step, hj] at hmem
      · intro hmem
        simp [trace_step, hj] at hmem
    | some j =>
      have hrj : trace_step now env s (TraceEvent.fire i)
          = run_job now env j { s with jobs := s.jobs.eraseIdx i } := by
        unfold trace_step
        dsimp only
        rw [hj]
      rw [hrj]
      unfold run_job
      cases hk : j.kind with
      | adminReminder =>
        exact admin_reminder_safe env c hadm j { s with jobs := s.jobs.eraseIdx i }
      | autoLeave =>
        exact leave_if_not_admin_safe now env c hadm j
          { s with jobs := s.jobs.eraseIdx i }

theorem run_trace_safe (now : Int) (env : Env) (c : Int)
    (hadm : member_is_admin (env.getMember c) = true) (evs : List TraceEvent) :
    ∀ s : BotState,
      Effect.sendMessage c ("reminder") ∉ (run_trace now env s evs).2 ∧
      Effect.leaveChat c ∉ (run_trace now env s evs).2 := by
  induction evs with
  | nil =>
    intro s
    constructor
    · intro hmem
      simp [run_trace] at hmem
    · intro hmem
      simp [run_trace] at hmem
  | cons e rest ih =>
    intro s
    have h1 := trace_step_safe now env c hadm s e
    have h2 := ih (trace_step now env s e).1
    constructor
    · intro hmem
      simp only [run_trace] at hmem
      rcases List.mem_append.mp hmem with h | h
      · exact h1.1 h
      · exact h2.1 h
    · intro hmem
      simp only [run_trace] at hmem
      rcases List.mem_append.mp hmem with h | h
      · exact h1.2 h
      · exact h2.2 h

/-- C8: If the bot is promoted to admin in chat c (the my_chat_member
promotion event arrives, and from then on the platform reports the bot
admin in c), then (1) immediately after the promotion event every pending
reminder and auto-leave job of chat c has been cancelled, and (2) no
matter which jobs fire afterwards and in which order, no further reminder
message for c is sent and no leave-chat call for c occurs. -/
theorem C8_promotion_cancels_reminders_and_leave (now : Int) (env : Env)
    (c : Int) (s : BotState) (evs : List TraceEvent)
    (hadm : member_is_admin (env.getMember c) = true) :
    (∀ j ∈ (trace_step now env s (TraceEvent.promote c)).1.jobs,
       (j.chat_id == c &&
         (("auto_leave_").isPrefixOf j.name || j.jtype == "admin_reminder"))
         = false) ∧
    Effect.sendMessage c ("reminder")
      ∉ (run_trace now env s (TraceEvent.promote c :: evs)).2 ∧
    Effect.leaveChat c
      ∉ (run_trace now env s (TraceEvent.promote c :: evs)).2 := by
  refine ⟨?_, (run_trace_safe now env c hadm (TraceEvent.promote c :: evs) s).1,
    (run_trace_safe now env c hadm (TraceEvent.promote c :: evs) s).2⟩
  intro j hj
  have hj2 : j ∈ clear_reminders c
      ({ s with USER_ADMIN_CACHE := alDel s.USER_ADMIN_CACHE c }).jobs := hj
  have h2 := (List.mem_filter.mp hj2).2
  rw [Bool.not_eq_true'] at h2
  exact h2

def c8_state : BotState :=
  ⟨[], [], [], [((-50 : Int), [77])],
   [], [⟨JobKind.adminReminder, "", 300, -50, 1, 5, "admin_reminder"⟩,
        ⟨JobKind.autoLeave, "auto_leave_-50", 1510, -50, 0, 0, ""⟩],
   [], []⟩

/-- Witness for C8: chat -50 has a pending reminder and a pending
auto-leave job; after promotion (platform reports admin) firing whatever
remains produces no reminder and no leave for -50. -/
theorem C8_promotion_cancels_reminders_and_leave_witness :
    member_is_admin (demo_env.getMember (-50)) = true ∧
    ((∀ j ∈ (trace_step 0 demo_env c8_state (TraceEvent.promote (-50))).1.jobs,
        (j.chat_id == (-50 : Int) &&
          (("auto_leave_").isPrefixOf j.name || j.jtype == "admin_reminder"))
          = false) ∧
     Effect.sendMessage (-50) ("reminder")
       ∉ (run_trace 0 demo_env c8_state
            (TraceEvent.promote (-50) :: [TraceEvent.fire 0])).2 ∧
     Effect.leaveChat (-50)
       ∉ (run_trace 0 demo_env c8_state
            (TraceEvent.promote (-50) :: [TraceEvent.fire 0])).2) :=
  ⟨by decide,
   C8_promotion_cancels_reminders_and_leave 0 demo_env (-50) c8_state
     [TraceEvent.fire 0] (by decide)⟩

-- ===== claim theorems: broadcast (C4, C10) =====

theorem send_batch_db_unchanged (outcome : Int → SendOutcome)
    (ids : List Int) :
    ∀ (db : BcDb) (sent : Nat),
      (send_batch (fun cid => PyCall.ret (send_content outcome cid))
        ids db sent).1 = db := by
  induction ids with
  | nil =>
    intro db sent
    rfl
  | cons cid rest ih =>
    intro db sent
    have hs : safe_send (fun cid => PyCall.ret (send_content outcome cid))
        5 cid db = (send_content outcome cid, db) := rfl
    simp only [send_batch, hs]
    exact ih db (sent + 1)

def c4_outcome : Int → SendOutcome := fun _ => SendOutcome.forbidden

def c4_db : BcDb := ⟨[7], []⟩

/-- C4 counterexample: Recipient 7 fails with the permanent-failure
signal (Forbidden) on a users broadcast.  The claim says such a recipient
is absent from the directory after the run; the code's `safe_send` /
`send_content` merely return None on Forbidden/BadRequest — nothing is ever
deleted from the users or groups tables — so 7 is still present. -/
theorem C4_permanent_failure_recipient_retained_cex :
    send_content c4_outcome 7 = none ∧
    (broadcast_run c4_outcome BcTarget.users c4_db).1.users = [7] := by
  decide

/-- C4 amended: A recipient whose send fails permanently is not
retried (send_content swallows the failure and returns None at once), but
no deletion from the recipient directory is scheduled: a broadcast run
leaves the directory exactly as it found it, for every outcome pattern and
every target selection, so failed recipients remain present. -/
theorem C4_broadcast_never_prunes_directory (outcome : Int → SendOutcome)
    (tgt : BcTarget) (db : BcDb) :
    (broadcast_run outcome tgt db).1 = db := by
  unfold broadcast_run
  exact send_batch_db_unchanged outcome (broadcast_targets db tgt) db 0

theorem send_batch_sent_counts (attempt : Int → PyCall (Option Unit))
    (ids : List Int) :
    ∀ (db : BcDb) (sent : Nat),
      (send_batch attempt ids db sent).2 = sent + ids.length := by
  induction ids with
  | nil =>
    intro db sent
    simp [send_batch]
  | cons cid rest ih =>
    intro db sent
    simp only [send_batch]
    rw [ih]
    simp [List.length_cons]
    omega

/-- C10: The broadcast's `sent` counter, reported as the final "Sent"
figure, is incremented exactly once per recipient id streamed from the
directory, whatever each send's outcome was: it equals the number of
recipients attempted, not the number of successful deliveries. -/
theorem C10_sent_counts_every_recipient_attempted (outcome : Int → SendOutcome)
    (tgt : BcTarget) (db : BcDb) :
    (broadcast_run outcome tgt db).2 = (broadcast_targets db tgt).length := by
  unfold broadcast_run
  rw [send_batch_sent_counts]
  simp
